import Mathlib

/-!
Verification of the BME280 driver core shared by `src/bme280.c` and
`src/bpbme280.c`: calibration decoding, the raw-ADC data model, and the
three fixed-point compensation functions (temperature, pressure, humidity).

Machine integers are embedded as `Int` with explicit two's-complement
wrapping (`wrap32`, `wrap64`, `wrap16`, `wrap8`) applied at every C
arithmetic operation, C's arithmetic right shift on an in-range value is
floor division by a power of two (`asr`, which is `Int` `/` since Lean's
`/` on `Int` is Euclidean division and the divisors are positive), left
shifts multiply and wrap, and C's truncating 64-bit division is
`Int.tdiv`.  The final conversion of each compensation result to `double`
is a single division of an integer by a constant; it is modelled exactly
over `ℚ`.
-/

/-- Two's-complement wrap to a signed 32-bit value, the effect of C `int32_t`
arithmetic. -/
def wrap32 (x : Int) : Int := (x + 2147483648) % 4294967296 - 2147483648

/-- Two's-complement wrap to a signed 64-bit value, the effect of C `int64_t`
arithmetic. -/
def wrap64 (x : Int) : Int :=
  (x + 9223372036854775808) % 18446744073709551616 - 9223372036854775808

/-- Two's-complement wrap to a signed 16-bit value, the effect of a C
`(int16_t)` cast. -/
def wrap16 (x : Int) : Int := (x + 32768) % 65536 - 32768

/-- Two's-complement wrap to a signed 8-bit value, the effect of a C
`(int8_t)` cast. -/
def wrap8 (x : Int) : Int := (x + 128) % 256 - 128

/-- C arithmetic right shift `x >> n` of an in-range signed value: floor
division by `2 ^ n` (Lean's `/` on `Int` with a positive divisor). -/
def asr (x : Int) (n : Nat) : Int := x / 2 ^ n

/-- C left shift `x << n` in 32-bit arithmetic: multiply and wrap. -/
def shl32 (x : Int) (n : Nat) : Int := wrap32 (x * 2 ^ n)

/-- C left shift `x << n` in 64-bit arithmetic: multiply and wrap. -/
def shl64 (x : Int) (n : Nat) : Int := wrap64 (x * 2 ^ n)

/-- The calibration struct `bme280_calib_t` of `src/bme280.c` lines 39-66
(field-for-field identical to `src/bpbme280.c` lines 78-88): sixteen
compensation coefficients plus the shared fine-temperature intermediate. -/
structure bme280_calib_t where
  dig_T1 : Int
  dig_T2 : Int
  dig_T3 : Int
  dig_P1 : Int
  dig_P2 : Int
  dig_P3 : Int
  dig_P4 : Int
  dig_P5 : Int
  dig_P6 : Int
  dig_P7 : Int
  dig_P8 : Int
  dig_P9 : Int
  dig_H1 : Int
  dig_H2 : Int
  dig_H3 : Int
  dig_H4 : Int
  dig_H5 : Int
  dig_H6 : Int
  t_fine : Int
  deriving DecidableEq, Repr

/-- `compensate_T` of `src/bme280.c` lines 162-170.  The C function reads
`adc_T` and the `dig_T1..dig_T3` fields, stores `var1 + var2` into
`c->t_fine`, and returns `((t_fine*5+128)>>8) / 100.0`; the state-passing
translation returns the result together with the updated struct. -/
def compensate_T (adc_T : Int) (c : bme280_calib_t) : ℚ × bme280_calib_t :=
  let var1 := asr (wrap32 (wrap32 (asr adc_T 3 - shl32 c.dig_T1 1) * c.dig_T2)) 11
  let d := wrap32 (asr adc_T 4 - c.dig_T1)
  let var2 := asr (wrap32 (asr (wrap32 (d * d)) 12 * c.dig_T3)) 14
  let tf := wrap32 (var1 + var2)
  let T := asr (wrap32 (wrap32 (tf * 5) + 128)) 8
  ((T : ℚ) / 100, { c with t_fine := tf })

/-- `compensate_P` of `src/bme280.c` lines 172-191: the chained 64-bit
fixed-point pressure computation, guarded by `if (var1 == 0) return 0;`,
returning the Q4.4 Pascal value divided by 25600.0 (hPa).  The function
never writes to the struct. -/
def compensate_P (adc_P : Int) (c : bme280_calib_t) : ℚ × bme280_calib_t :=
  let var1a := wrap64 (c.t_fine - 128000)
  let var2a := wrap64 (wrap64 (var1a * var1a) * c.dig_P6)
  let var2b := wrap64 (var2a + shl64 (wrap64 (var1a * c.dig_P5)) 17)
  let var2c := wrap64 (var2b + shl64 c.dig_P4 35)
  let var1b := wrap64 (asr (wrap64 (wrap64 (var1a * var1a) * c.dig_P3)) 8 +
                shl64 (wrap64 (var1a * c.dig_P2)) 12)
  let var1c := asr (wrap64 (wrap64 (shl64 1 47 + var1b) * c.dig_P1)) 33
  if var1c = 0 then (0, c) else
  let p1 := wrap64 (1048576 - adc_P)
  let p2 := wrap64 (Int.tdiv (wrap64 (wrap64 (shl64 p1 31 - var2c) * 3125)) var1c)
  let v1d := asr (wrap64 (wrap64 (c.dig_P9 * asr p2 13) * asr p2 13)) 25
  let v2d := asr (wrap64 (c.dig_P8 * p2)) 19
  let p3 := wrap64 (asr (wrap64 (wrap64 (p2 + v1d) + v2d)) 8 + shl64 c.dig_P7 4)
  ((p3 : ℚ) / 25600, c)

/-- `compensate_H` of `src/bme280.c` lines 193-204: the 32-bit fixed-point
humidity computation, clamped into `[0, 419430400]`, then `>> 12` and
divided by 1024.0 (%RH).  The function never writes to the struct. -/
def compensate_H (adc_H : Int) (c : bme280_calib_t) : ℚ × bme280_calib_t :=
  let v0 := wrap32 (c.t_fine - 76800)
  let vL := asr (wrap32 (wrap32 (wrap32 (shl32 adc_H 14 - shl32 c.dig_H4 20) -
              wrap32 (c.dig_H5 * v0)) + 16384)) 15
  let vR := asr (wrap32 (wrap32 (wrap32 (asr (wrap32 (asr (wrap32 (v0 * c.dig_H6)) 10 *
              wrap32 (asr (wrap32 (v0 * c.dig_H3)) 11 + 32768))) 10) + 2097152) *
              c.dig_H2 + 8192)) 14
  let v1 := wrap32 (vL * vR)
  let v2 := wrap32 (v1 - asr (wrap32 (asr (wrap32 (asr v1 15 * asr v1 15)) 7 *
              c.dig_H1)) 4)
  let v3 := if v2 < 0 then 0 else v2
  let v4 := if v3 > 419430400 then 419430400 else v3
  let h := asr v4 12
  ((h : ℚ) / 1024, c)

/-- `bme280_comp_T` of `src/bpbme280.c` lines 155-163 (textually the same
arithmetic as `compensate_T`). -/
def bme280_comp_T (adc_T : Int) (c : bme280_calib_t) : ℚ × bme280_calib_t :=
  let var1 := asr (wrap32 (wrap32 (asr adc_T 3 - shl32 c.dig_T1 1) * c.dig_T2)) 11
  let d := wrap32 (asr adc_T 4 - c.dig_T1)
  let var2 := asr (wrap32 (asr (wrap32 (d * d)) 12 * c.dig_T3)) 14
  let tf := wrap32 (var1 + var2)
  let T := asr (wrap32 (wrap32 (tf * 5) + 128)) 8
  ((T : ℚ) / 100, { c with t_fine := tf })

/-- `bme280_comp_P` of `src/bpbme280.c` lines 165-181 (the same arithmetic
as `compensate_P`; the parenthesisation of line 172 parses identically to
`bme280.c` line 179 since `*` binds tighter than `>>`). -/
def bme280_comp_P (adc_P : Int) (c : bme280_calib_t) : ℚ × bme280_calib_t :=
  let var1a := wrap64 (c.t_fine - 128000)
  let var2a := wrap64 (wrap64 (var1a * var1a) * c.dig_P6)
  let var2b := wrap64 (var2a + shl64 (wrap64 (var1a * c.dig_P5)) 17)
  let var2c := wrap64 (var2b + shl64 c.dig_P4 35)
  let var1b := wrap64 (asr (wrap64 (wrap64 (var1a * var1a) * c.dig_P3)) 8 +
                shl64 (wrap64 (var1a * c.dig_P2)) 12)
  let var1c := asr (wrap64 (wrap64 (shl64 1 47 + var1b) * c.dig_P1)) 33
  if var1c = 0 then (0, c) else
  let p1 := wrap64 (1048576 - adc_P)
  let p2 := wrap64 (Int.tdiv (wrap64 (wrap64 (shl64 p1 31 - var2c) * 3125)) var1c)
  let v1d := asr (wrap64 (wrap64 (c.dig_P9 * asr p2 13) * asr p2 13)) 25
  let v2d := asr (wrap64 (c.dig_P8 * p2)) 19
  let p3 := wrap64 (asr (wrap64 (wrap64 (p2 + v1d) + v2d)) 8 + shl64 c.dig_P7 4)
  ((p3 : ℚ) / 25600, c)

/-- `bme280_comp_H` of `src/bpbme280.c` lines 183-194.  Note the second
factor: the source computes `(... + 2097152) * ((int32_t)c->dig_H2 + 8192)`
before `>> 14`, i.e. it multiplies by `dig_H2 + 8192`, where `bme280.c`
line 198 multiplies by `dig_H2` and then adds `8192`. -/
def bme280_comp_H (adc_H : Int) (c : bme280_calib_t) : ℚ × bme280_calib_t :=
  let v0 := wrap32 (c.t_fine - 76800)
  let vL := asr (wrap32 (wrap32 (wrap32 (shl32 adc_H 14 - shl32 c.dig_H4 20) -
              wrap32 (c.dig_H5 * v0)) + 16384)) 15
  let vR := asr (wrap32 (wrap32 (wrap32 (asr (wrap32 (asr (wrap32 (v0 * c.dig_H6)) 10 *
              wrap32 (asr (wrap32 (v0 * c.dig_H3)) 11 + 32768))) 10) + 2097152) *
              wrap32 (c.dig_H2 + 8192))) 14
  let v1 := wrap32 (vL * vR)
  let v2 := wrap32 (v1 - asr (wrap32 (asr (wrap32 (asr v1 15 * asr v1 15)) 7 *
              c.dig_H1)) 4)
  let v3 := if v2 < 0 then 0 else v2
  let v4 := if v3 > 419430400 then 419430400 else v3
  let h := asr v4 12
  ((h : ℚ) / 1024, c)

/-- The `U16_LE` macro of `src/bme280.c` line 99: little-endian unsigned
16-bit decode of two bytes, `(uint16_t)(p[0] | ((uint16_t)p[1] << 8))`. -/
def u16_le (lo hi : Nat) : Int := ((lo ||| (hi <<< 8)) % 65536 : Nat)

/-- The `S16_LE` macro of `src/bme280.c` line 100: little-endian signed
16-bit decode of two bytes, `(int16_t)(p[0] | ((int16_t)p[1] << 8))`. -/
def s16_le (lo hi : Nat) : Int := wrap16 ((lo ||| (hi <<< 8) : Nat))

/-- The decoding block of `read_calibration`, `src/bme280.c` lines 98-130
(textually identical in `bme280_read_calib`, `src/bpbme280.c` lines
116-129): `b1` is the 26-byte block read from 0x88, `b2` the 7-byte block
read from 0xE1, and `tf` the (untouched) previous `t_fine` field. -/
def decode_calib (b1 b2 : List Nat) (tf : Int) : bme280_calib_t where
  dig_T1 := u16_le (b1.getD 0 0) (b1.getD 1 0)
  dig_T2 := s16_le (b1.getD 2 0) (b1.getD 3 0)
  dig_T3 := s16_le (b1.getD 4 0) (b1.getD 5 0)
  dig_P1 := u16_le (b1.getD 6 0) (b1.getD 7 0)
  dig_P2 := s16_le (b1.getD 8 0) (b1.getD 9 0)
  dig_P3 := s16_le (b1.getD 10 0) (b1.getD 11 0)
  dig_P4 := s16_le (b1.getD 12 0) (b1.getD 13 0)
  dig_P5 := s16_le (b1.getD 14 0) (b1.getD 15 0)
  dig_P6 := s16_le (b1.getD 16 0) (b1.getD 17 0)
  dig_P7 := s16_le (b1.getD 18 0) (b1.getD 19 0)
  dig_P8 := s16_le (b1.getD 20 0) (b1.getD 21 0)
  dig_P9 := s16_le (b1.getD 22 0) (b1.getD 23 0)
  dig_H1 := (b1.getD 24 0 : Nat)
  dig_H2 := s16_le (b2.getD 0 0) (b2.getD 1 0)
  dig_H3 := (b2.getD 2 0 : Nat)
  dig_H4 := wrap16 (((b2.getD 3 0) <<< 4 ||| ((b2.getD 4 0) &&& 15) : Nat))
  dig_H5 := wrap16 (((b2.getD 5 0) <<< 4 ||| ((b2.getD 4 0) >>> 4) : Nat))
  dig_H6 := wrap8 (b2.getD 6 0)
  t_fine := tf

/-- Abstract register transport: `read reg len` models the
write-register-address-then-read syscall pair of `i2c_read_regs`
(`src/bme280.c` lines 85-89); `none` is an I/O failure and `some bs`
a read that returned the byte list `bs` (possibly short). -/
def I2CRead : Type := Nat → Nat → Option (List Nat)

/-- `i2c_read_regs` of `src/bme280.c` lines 85-89: fails unless the
underlying read returns exactly `len` bytes. -/
def i2c_read_regs (bus : I2CRead) (reg len : Nat) : Option (List Nat) :=
  match bus reg len with
  | none => none
  | some bs => if bs.length = len then some bs else none

/-- `read_calibration` of `src/bme280.c` lines 91-133: reads 26 bytes from
0x88 (136) and 7 bytes from 0xE1 (225); on any failure it returns -1
before writing anything, so the struct is returned unchanged. -/
def read_calibration (bus : I2CRead) (c : bme280_calib_t) :
    Int × bme280_calib_t :=
  match i2c_read_regs bus 136 26 with
  | none => (-1, c)
  | some b1 =>
    match i2c_read_regs bus 225 7 with
    | none => (-1, c)
    | some b2 => (0, decode_calib b1 b2 c.t_fine)

/-- The 64-bit `var1` denominator of the pressure computation, as it stands
at the `if (var1 == 0)` guard of `src/bme280.c` line 181. -/
def pressure_var1 (c : bme280_calib_t) : Int :=
  let var1a := wrap64 (c.t_fine - 128000)
  let var1b := wrap64 (asr (wrap64 (wrap64 (var1a * var1a) * c.dig_P3)) 8 +
                shl64 (wrap64 (var1a * c.dig_P2)) 12)
  asr (wrap64 (wrap64 (shl64 1 47 + var1b) * c.dig_P1)) 33

/-- The Q4.4 fixed-point pressure value `p` produced by the non-degenerate
branch of `compensate_P` (`src/bme280.c` lines 183-187), before the final
division by 25600.0. -/
def pressure_q44 (adc_P : Int) (c : bme280_calib_t) : Int :=
  let var1a := wrap64 (c.t_fine - 128000)
  let var2a := wrap64 (wrap64 (var1a * var1a) * c.dig_P6)
  let var2b := wrap64 (var2a + shl64 (wrap64 (var1a * c.dig_P5)) 17)
  let var2c := wrap64 (var2b + shl64 c.dig_P4 35)
  let p1 := wrap64 (1048576 - adc_P)
  let p2 := wrap64 (Int.tdiv (wrap64 (wrap64 (shl64 p1 31 - var2c) * 3125))
              (pressure_var1 c))
  let v1d := asr (wrap64 (wrap64 (c.dig_P9 * asr p2 13) * asr p2 13)) 25
  let v2d := asr (wrap64 (c.dig_P8 * p2)) 19
  wrap64 (asr (wrap64 (wrap64 (p2 + v1d) + v2d)) 8 + shl64 c.dig_P7 4)

/-- Little-endian re-encoding of a decoded 16-bit calibration field back to
its two bytes (two's complement for the signed fields, plain value for the
unsigned ones). -/
def enc16 (v : Int) : Nat × Nat := ((v % 65536).toNat % 256, (v % 65536).toNat / 256)

/-- Re-encoding of a decoded 8-bit calibration field back to its byte. -/
def enc8 (v : Int) : Nat := (v % 256).toNat

/-- The spec's synthetic calibration set (spec.md section 8), with
`t_fine = 0` as loaded. -/
def specCalib : bme280_calib_t :=
  ⟨27504, 26435, -1000, 36477, -10685, 3024, 2855, 140, -7, 15500, -14600,
   6000, 75, 362, 0, 331, 0, 30, 0⟩

/-- The spec's synthetic calibration set after temperature compensation of
`adc_T = 519888` has set `t_fine = 128422`. -/
def specCalibTf : bme280_calib_t :=
  ⟨27504, 26435, -1000, 36477, -10685, 3024, 2855, 140, -7, 15500, -14600,
   6000, 75, 362, 0, 331, 0, 30, 128422⟩

/-- A degenerate calibration set with `dig_P1 = 0`, which forces the
pressure denominator `var1` to zero. -/
def degenCalib : bme280_calib_t :=
  ⟨27504, 26435, -1000, 0, -10685, 3024, 2855, 140, -7, 15500, -14600,
   6000, 75, 362, 0, 331, 0, 30, 128422⟩

/-- A calibration set (`dig_T1 = 0`, `dig_T2 = 0`, `dig_T3 = -1000`, all
fields within their C types' ranges) on which temperature compensation is
not monotone in the raw ADC value. -/
def nonMonoCalib : bme280_calib_t :=
  ⟨0, 0, -1000, 36477, -10685, 3024, 2855, 140, -7, 15500, -14600,
   6000, 75, 362, 0, 331, 0, 30, 0⟩

/-- Concrete 26-byte block-A buffer used to witness the round-trip law. -/
def b1w : List Nat :=
  [112, 107, 67, 103, 24, 252, 125, 142, 189, 214, 208, 11, 39, 11, 140, 0,
   249, 255, 140, 60, 240, 198, 112, 23, 75, 0]

/-- Concrete 7-byte block-B buffer used to witness the round-trip law. -/
def b2w : List Nat := [106, 1, 0, 19, 42, 3, 30]

/-- A transport on which every read returns zero bytes (a short read). -/
def busShort : I2CRead := fun _ _ => some []

/-! ## Helper lemmas -/

/-- Bitwise-or of a byte with a value shifted past it is addition. -/
theorem byte_lor (lo hi : Nat) (h : lo < 256) :
    lo ||| (hi <<< 8) = lo + 256 * hi := by
  apply Nat.eq_of_testBit_eq
  intro i
  rw [Nat.testBit_lor, Nat.testBit_shiftLeft]
  have h256 : lo + 256 * hi = 2 ^ 8 * hi + lo := by ring
  have h8 : lo < 2 ^ 8 := h
  rw [h256, Nat.testBit_mul_pow_two_add hi h8 i]
  rcases Nat.lt_or_ge i 8 with hi8 | hi8
  · have hd : decide (i ≥ 8) = false := by simp [ge_iff_le]; omega
    rw [hd]
    simp [hi8]
  · have hd : decide (i ≥ 8) = true := by simp [ge_iff_le]; omega
    rw [hd]
    have hlo : lo.testBit i = false := by
      apply Nat.testBit_lt_two_pow
      calc lo < 256 := h
        _ ≤ 2 ^ i := by
          have h2 : (256 : Nat) = 2 ^ 8 := by norm_num
          rw [h2]
          exact Nat.pow_le_pow_right (by norm_num) hi8
    rw [hlo]
    simp [Nat.not_lt.mpr hi8]

/-- Re-encoding inverts the unsigned little-endian 16-bit decode. -/
theorem enc16_u16_le (lo hi : Nat) (hlo : lo < 256) (hhi : hi < 256) :
    enc16 (u16_le lo hi) = (lo, hi) := by
  simp only [u16_le, enc16, byte_lor lo hi hlo, Prod.mk.injEq]
  constructor <;> omega

/-- Re-encoding inverts the signed little-endian 16-bit decode. -/
theorem enc16_s16_le (lo hi : Nat) (hlo : lo < 256) (hhi : hi < 256) :
    enc16 (s16_le lo hi) = (lo, hi) := by
  simp only [s16_le, enc16, wrap16, byte_lor lo hi hlo, Prod.mk.injEq]
  constructor <;> omega

/-- Re-encoding inverts the unsigned byte decode. -/
theorem enc8_byte (b : Nat) (h : b < 256) : enc8 ((b : Nat) : Int) = b := by
  simp only [enc8]
  omega

/-- Re-encoding inverts the signed byte decode. -/
theorem enc8_wrap8 (b : Nat) (h : b < 256) : enc8 (wrap8 b) = b := by
  simp only [enc8, wrap8]
  omega

/-- The humidity clamp-then-scale tail maps any 32-bit intermediate into
`[0, 400]` (in fact into `[0, 100]`). -/
theorem hclamp_bounds (v : Int) :
    0 ≤ ((asr (if (if v < 0 then 0 else v) > 419430400 then 419430400
          else if v < 0 then 0 else v) 12 : Int) : ℚ) / 1024 ∧
    ((asr (if (if v < 0 then 0 else v) > 419430400 then 419430400
          else if v < 0 then 0 else v) 12 : Int) : ℚ) / 1024 ≤ 400 := by
  have h12 : 0 ≤ asr (if (if v < 0 then 0 else v) > 419430400 then 419430400
      else if v < 0 then 0 else v) 12 ∧
      asr (if (if v < 0 then 0 else v) > 419430400 then 419430400
      else if v < 0 then 0 else v) 12 ≤ 102400 := by
    simp only [asr]
    split_ifs <;> omega
  constructor
  · apply div_nonneg _ (by norm_num)
    exact_mod_cast h12.1
  · rw [div_le_iff₀ (by norm_num : (0:ℚ) < 1024)]
    calc ((asr _ 12 : Int) : ℚ) ≤ (102400 : ℚ) := by exact_mod_cast h12.2
      _ ≤ 400 * 1024 := by norm_num

/-! ## Claim theorems -/

/-- C1.  The temperature and pressure compensation functions of the two
files agree on every input, but the humidity compensation functions
disagree: on the spec's own synthetic calibration set with
`t_fine = 128422` and `adc_H = 30000`, `src/bme280.c` returns
`12663/256 ≈ 49.46 %RH` while `src/bpbme280.c` returns
`76221/1024 ≈ 74.43 %RH`, because `bpbme280.c` multiplies by
`dig_H2 + 8192` where `bme280.c` multiplies by `dig_H2` and then adds
`8192`. -/
theorem duplicated_core_divergence :
    (∀ a c, compensate_T a c = bme280_comp_T a c) ∧
    (∀ a c, compensate_P a c = bme280_comp_P a c) ∧
    (compensate_H 30000 specCalibTf).1 ≠ (bme280_comp_H 30000 specCalibTf).1 :=
  ⟨fun _ _ => rfl, fun _ _ => rfl, by
    norm_num [compensate_H, bme280_comp_H, specCalibTf, wrap32, asr, shl32]⟩

/-- C2.  For every calibration set, fine temperature and raw humidity ADC
value, the humidity compensation output lies in `[0, 400]`: the 32-bit
intermediate is clamped into `[0, 419430400]` before the `>> 12` and the
division by 1024.0, so the result never leaves `[0.0, 409600.0/1024.0]`. -/
theorem compensate_H_output_range (adc : Int) (c : bme280_calib_t) :
    0 ≤ (compensate_H adc c).1 ∧ (compensate_H adc c).1 ≤ 400 :=
  hclamp_bounds _

/-- C3.  Whenever the computed 64-bit `var1` denominator is exactly zero the
pressure compensation returns exactly 0.0 (no division is reached), and
otherwise it returns the chained Q4.4 fixed-point result divided by
25600.0. -/
theorem compensate_P_zero_guard (adc : Int) (c : bme280_calib_t) :
    (pressure_var1 c = 0 → (compensate_P adc c).1 = 0) ∧
    (pressure_var1 c ≠ 0 →
      (compensate_P adc c).1 = (pressure_q44 adc c : ℚ) / 25600) := by
  constructor
  · intro h
    simp only [compensate_P, pressure_var1] at h ⊢
    rw [if_pos h]
  · intro h
    simp only [compensate_P, pressure_var1, pressure_q44] at h ⊢
    rw [if_neg h]

/-- Witness for C3: `dig_P1 = 0` drives `var1` to zero and the function
returns 0.0 there, while the spec's synthetic calibration set has a
nonzero `var1` and takes the Q4.4 branch. -/
theorem compensate_P_zero_guard_witness :
    pressure_var1 degenCalib = 0 ∧ (compensate_P 415148 degenCalib).1 = 0 ∧
    pressure_var1 specCalibTf ≠ 0 ∧
    (compensate_P 415148 specCalibTf).1 =
      (pressure_q44 415148 specCalibTf : ℚ) / 25600 :=
  ⟨by decide, (compensate_P_zero_guard 415148 degenCalib).1 (by decide),
   by decide, (compensate_P_zero_guard 415148 specCalibTf).2 (by decide)⟩

/-- C4.  On the synthetic calibration `T1 = 27504`, `T2 = 26435`,
`T3 = -1000` and `adc_T = 519888`, temperature compensation produces
`t_fine = 128422` and returns `2508/100 = 25.08` °C, the datasheet
reference output. -/
theorem compensate_T_datasheet_example :
    (compensate_T 519888 specCalib).1 = 2508 / 100 ∧
    (compensate_T 519888 specCalib).2.t_fine = 128422 :=
  ⟨by norm_num [compensate_T, specCalib, wrap32, asr, shl32], by decide⟩

/-- C5.  The H4/H5 nibble-swap decode of block-B bytes
`byte[3] = 0x1E`, `byte[4] = 0x3F`, `byte[5] = 0x02` yields
`dig_H4 = 0x1EF = 495` and `dig_H5 = 0x23 = 35`. -/
theorem h4_h5_nibble_example :
    (decode_calib [] [0, 0, 0, 30, 63, 2, 0] 0).dig_H4 = 495 ∧
    (decode_calib [] [0, 0, 0, 30, 63, 2, 0] 0).dig_H5 = 35 := by
  decide

/-- C6.  If either underlying register read fails or returns fewer bytes
than requested, `read_calibration` returns -1 and the calibration struct
is returned exactly as it was: no field is written. -/
theorem read_calibration_atomic (bus : I2CRead) (c : bme280_calib_t)
    (h : bus 136 26 = none ∨ (∃ bs, bus 136 26 = some bs ∧ bs.length ≠ 26) ∨
         bus 225 7 = none ∨ (∃ bs, bus 225 7 = some bs ∧ bs.length ≠ 7)) :
    read_calibration bus c = (-1, c) := by
  rcases h with h | ⟨bs, hbs, hlen⟩ | h | ⟨bs, hbs, hlen⟩
  · simp [read_calibration, i2c_read_regs, h]
  · simp [read_calibration, i2c_read_regs, hbs, hlen]
  · cases h1 : bus 136 26 with
    | none => simp [read_calibration, i2c_read_regs, h1]
    | some bs1 =>
      by_cases h2 : bs1.length = 26
      · simp [read_calibration, i2c_read_regs, h1, h2, h]
      · simp [read_calibration, i2c_read_regs, h1, h2]
  · cases h1 : bus 136 26 with
    | none => simp [read_calibration, i2c_read_regs, h1]
    | some bs1 =>
      by_cases h2 : bs1.length = 26
      · simp [read_calibration, i2c_read_regs, h1, h2, hbs, hlen]
      · simp [read_calibration, i2c_read_regs, h1, h2]

/-- Witness for C6: a transport whose reads all come back short makes
`read_calibration` fail and leave the struct untouched. -/
theorem read_calibration_atomic_witness :
    (∃ bs, busShort 136 26 = some bs ∧ bs.length ≠ 26) ∧
    read_calibration busShort specCalib = (-1, specCalib) :=
  ⟨⟨[], rfl, by decide⟩,
   read_calibration_atomic busShort specCalib
     (Or.inr (Or.inl ⟨[], rfl, by decide⟩))⟩

/-- C9.  For byte-valued block-B inputs the nibble-packed `dig_H4` and
`dig_H5` land in `[0, 4095]`: the widening into the signed 16-bit
container never sign-extends, so they are never negative. -/
theorem dig_H4_H5_range (b1 b2 : List Nat)
    (h3 : b2.getD 3 0 < 256) (h4 : b2.getD 4 0 < 256)
    (h5 : b2.getD 5 0 < 256) :
    0 ≤ (decode_calib b1 b2 0).dig_H4 ∧ (decode_calib b1 b2 0).dig_H4 ≤ 4095 ∧
    0 ≤ (decode_calib b1 b2 0).dig_H5 ∧ (decode_calib b1 b2 0).dig_H5 ≤ 4095 := by
  have hb4 : ((b2.getD 3 0) <<< 4 ||| ((b2.getD 4 0) &&& 15)) < 4096 := by
    have h1 : (4096 : Nat) = 2 ^ 12 := by norm_num
    rw [h1]
    apply Nat.or_lt_two_pow
    · rw [Nat.shiftLeft_eq]; omega
    · have h2 : (b2.getD 4 0) &&& 15 ≤ 15 := Nat.and_le_right
      omega
  have hb5 : ((b2.getD 5 0) <<< 4 ||| ((b2.getD 4 0) >>> 4)) < 4096 := by
    have h1 : (4096 : Nat) = 2 ^ 12 := by norm_num
    rw [h1]
    apply Nat.or_lt_two_pow
    · rw [Nat.shiftLeft_eq]; omega
    · rw [Nat.shiftRight_eq_div_pow]; omega
  simp only [decode_calib, wrap16]
  omega

/-- Witness for C9 on the concrete block-B buffer `b2w`. -/
theorem dig_H4_H5_range_witness :
    (b2w.getD 3 0 < 256 ∧ b2w.getD 4 0 < 256 ∧ b2w.getD 5 0 < 256) ∧
    (0 ≤ (decode_calib b1w b2w 0).dig_H4 ∧
     (decode_calib b1w b2w 0).dig_H4 ≤ 4095 ∧
     0 ≤ (decode_calib b1w b2w 0).dig_H5 ∧
     (decode_calib b1w b2w 0).dig_H5 ≤ 4095) :=
  ⟨⟨by decide, by decide, by decide⟩,
   dig_H4_H5_range b1w b2w (by decide) (by decide) (by decide)⟩

/-- C10.  Pressure and humidity compensation return the calibration struct
unchanged, and temperature compensation changes only `t_fine`, leaving all
sixteen coefficient fields as they were. -/
theorem compensation_frame (adc : Int) (c : bme280_calib_t) :
    ((compensate_P adc c).2 = c ∧ (compensate_H adc c).2 = c) ∧
    (compensate_T adc c).2.dig_T1 = c.dig_T1 ∧
    (compensate_T adc c).2.dig_T2 = c.dig_T2 ∧
    (compensate_T adc c).2.dig_T3 = c.dig_T3 ∧
    (compensate_T adc c).2.dig_P1 = c.dig_P1 ∧
    (compensate_T adc c).2.dig_P2 = c.dig_P2 ∧
    (compensate_T adc c).2.dig_P3 = c.dig_P3 ∧
    (compensate_T adc c).2.dig_P4 = c.dig_P4 ∧
    (compensate_T adc c).2.dig_P5 = c.dig_P5 ∧
    (compensate_T adc c).2.dig_P6 = c.dig_P6 ∧
    (compensate_T adc c).2.dig_P7 = c.dig_P7 ∧
    (compensate_T adc c).2.dig_P8 = c.dig_P8 ∧
    (compensate_T adc c).2.dig_P9 = c.dig_P9 ∧
    (compensate_T adc c).2.dig_H1 = c.dig_H1 ∧
    (compensate_T adc c).2.dig_H2 = c.dig_H2 ∧
    (compensate_T adc c).2.dig_H3 = c.dig_H3 ∧
    (compensate_T adc c).2.dig_H4 = c.dig_H4 ∧
    (compensate_T adc c).2.dig_H5 = c.dig_H5 ∧
    (compensate_T adc c).2.dig_H6 = c.dig_H6 := by
  refine ⟨⟨?_, rfl⟩, rfl, rfl, rfl, rfl, rfl, rfl, rfl, rfl, rfl, rfl, rfl,
    rfl, rfl, rfl, rfl, rfl, rfl, rfl⟩
  simp only [compensate_P]
  split <;> rfl

/-- C8.  Decoding of the simple little-endian calibration fields is
reversible: re-encoding the decoded T1-T3, P1-P9, H1-H3 and H6 (16-bit
little-endian pairs for the 16-bit fields, single bytes for the 8-bit
fields) reproduces the corresponding input bytes exactly. -/
theorem decode_simple_fields_roundtrip (b1 b2 : List Nat)
    (hb1 : ∀ i, i < 26 → b1.getD i 0 < 256)
    (hb2 : ∀ i, i < 7 → b2.getD i 0 < 256) :
    enc16 ((decode_calib b1 b2 0).dig_T1) = (b1.getD 0 0, b1.getD 1 0) ∧
    enc16 ((decode_calib b1 b2 0).dig_T2) = (b1.getD 2 0, b1.getD 3 0) ∧
    enc16 ((decode_calib b1 b2 0).dig_T3) = (b1.getD 4 0, b1.getD 5 0) ∧
    enc16 ((decode_calib b1 b2 0).dig_P1) = (b1.getD 6 0, b1.getD 7 0) ∧
    enc16 ((decode_calib b1 b2 0).dig_P2) = (b1.getD 8 0, b1.getD 9 0) ∧
    enc16 ((decode_calib b1 b2 0).dig_P3) = (b1.getD 10 0, b1.getD 11 0) ∧
    enc16 ((decode_calib b1 b2 0).dig_P4) = (b1.getD 12 0, b1.getD 13 0) ∧
    enc16 ((decode_calib b1 b2 0).dig_P5) = (b1.getD 14 0, b1.getD 15 0) ∧
    enc16 ((decode_calib b1 b2 0).dig_P6) = (b1.getD 16 0, b1.getD 17 0) ∧
    enc16 ((decode_calib b1 b2 0).dig_P7) = (b1.getD 18 0, b1.getD 19 0) ∧
    enc16 ((decode_calib b1 b2 0).dig_P8) = (b1.getD 20 0, b1.getD 21 0) ∧
    enc16 ((decode_calib b1 b2 0).dig_P9) = (b1.getD 22 0, b1.getD 23 0) ∧
    enc8 ((decode_calib b1 b2 0).dig_H1) = b1.getD 24 0 ∧
    enc16 ((decode_calib b1 b2 0).dig_H2) = (b2.getD 0 0, b2.getD 1 0) ∧
    enc8 ((decode_calib b1 b2 0).dig_H3) = b2.getD 2 0 ∧
    enc8 ((decode_calib b1 b2 0).dig_H6) = b2.getD 6 0 := by
  simp only [decode_calib]
  exact ⟨enc16_u16_le _ _ (hb1 0 (by omega)) (hb1 1 (by omega)),
    enc16_s16_le _ _ (hb1 2 (by omega)) (hb1 3 (by omega)),
    enc16_s16_le _ _ (hb1 4 (by omega)) (hb1 5 (by omega)),
    enc16_u16_le _ _ (hb1 6 (by omega)) (hb1 7 (by omega)),
    enc16_s16_le _ _ (hb1 8 (by omega)) (hb1 9 (by omega)),
    enc16_s16_le _ _ (hb1 10 (by omega)) (hb1 11 (by omega)),
    enc16_s16_le _ _ (hb1 12 (by omega)) (hb1 13 (by omega)),
    enc16_s16_le _ _ (hb1 14 (by omega)) (hb1 15 (by omega)),
    enc16_s16_le _ _ (hb1 16 (by omega)) (hb1 17 (by omega)),
    enc16_s16_le _ _ (hb1 18 (by omega)) (hb1 19 (by omega)),
    enc16_s16_le _ _ (hb1 20 (by omega)) (hb1 21 (by omega)),
    enc16_s16_le _ _ (hb1 22 (by omega)) (hb1 23 (by omega)),
    enc8_byte _ (hb1 24 (by omega)),
    enc16_s16_le _ _ (hb2 0 (by omega)) (hb2 1 (by omega)),
    enc8_byte _ (hb2 2 (by omega)),
    enc8_wrap8 _ (hb2 6 (by omega))⟩

/-- Witness for C8 on the concrete buffers `b1w` and `b2w`. -/
theorem decode_simple_fields_roundtrip_witness :
    (∀ i, i < 26 → b1w.getD i 0 < 256) ∧ (∀ i, i < 7 → b2w.getD i 0 < 256) ∧
    (enc16 ((decode_calib b1w b2w 0).dig_T1) = (b1w.getD 0 0, b1w.getD 1 0) ∧
     enc16 ((decode_calib b1w b2w 0).dig_T2) = (b1w.getD 2 0, b1w.getD 3 0) ∧
     enc16 ((decode_calib b1w b2w 0).dig_T3) = (b1w.getD 4 0, b1w.getD 5 0) ∧
     enc16 ((decode_calib b1w b2w 0).dig_P1) = (b1w.getD 6 0, b1w.getD 7 0) ∧
     enc16 ((decode_calib b1w b2w 0).dig_P2) = (b1w.getD 8 0, b1w.getD 9 0) ∧
     enc16 ((decode_calib b1w b2w 0).dig_P3) = (b1w.getD 10 0, b1w.getD 11 0) ∧
     enc16 ((decode_calib b1w b2w 0).dig_P4) = (b1w.getD 12 0, b1w.getD 13 0) ∧
     enc16 ((decode_calib b1w b2w 0).dig_P5) = (b1w.getD 14 0, b1w.getD 15 0) ∧
     enc16 ((decode_calib b1w b2w 0).dig_P6) = (b1w.getD 16 0, b1w.getD 17 0) ∧
     enc16 ((decode_calib b1w b2w 0).dig_P7) = (b1w.getD 18 0, b1w.getD 19 0) ∧
     enc16 ((decode_calib b1w b2w 0).dig_P8) = (b1w.getD 20 0, b1w.getD 21 0) ∧
     enc16 ((decode_calib b1w b2w 0).dig_P9) = (b1w.getD 22 0, b1w.getD 23 0) ∧
     enc8 ((decode_calib b1w b2w 0).dig_H1) = b1w.getD 24 0 ∧
     enc16 ((decode_calib b1w b2w 0).dig_H2) = (b2w.getD 0 0, b2w.getD 1 0) ∧
     enc8 ((decode_calib b1w b2w 0).dig_H3) = b2w.getD 2 0 ∧
     enc8 ((decode_calib b1w b2w 0).dig_H6) = b2w.getD 6 0) :=
  ⟨by decide, by decide,
   decode_simple_fields_roundtrip b1w b2w (by decide) (by decide)⟩

/-- A 32-bit wrap is the identity on in-range values. -/
theorem wrap32_eq_self (x : Int) (h1 : -2147483648 ≤ x) (h2 : x < 2147483648) :
    wrap32 x = x := by
  unfold wrap32
  omega

/-- For the datasheet calibration `T1 = 27504`, `T2 = 26435`, `T3 = -1000`
and a 20-bit raw value, no intermediate of the `t_fine` computation
overflows `int32_t`, so every wrap is the identity and `t_fine` has a
wrap-free closed form. -/
theorem tfine_chain (a : Int) (ha : 0 ≤ a) (hb : a < 1048576) :
    wrap32 (asr (wrap32 (wrap32 (asr a 3 - shl32 27504 1) * 26435)) 11 +
      asr (wrap32 (asr (wrap32 (wrap32 (asr a 4 - 27504) * wrap32 (asr a 4 - 27504))) 12 *
        (-1000))) 14) =
    (a / 2 ^ 3 - 55008) * 26435 / 2 ^ 11 +
    (a / 2 ^ 4 - 27504) * (a / 2 ^ 4 - 27504) / 2 ^ 12 * (-1000) / 2 ^ 14 := by
  simp only [asr]
  have e1 : shl32 (27504 : Int) 1 = 55008 := by decide
  rw [e1]
  have e2 : wrap32 (a / 2 ^ 3 - 55008) = a / 2 ^ 3 - 55008 :=
    wrap32_eq_self _ (by omega) (by omega)
  rw [e2]
  have e3 : wrap32 ((a / 2 ^ 3 - 55008) * 26435) = (a / 2 ^ 3 - 55008) * 26435 :=
    wrap32_eq_self _ (by omega) (by omega)
  rw [e3]
  have e4 : wrap32 (a / 2 ^ 4 - 27504) = a / 2 ^ 4 - 27504 :=
    wrap32_eq_self _ (by omega) (by omega)
  rw [e4]
  have hd1 : -27504 ≤ a / 2 ^ 4 - 27504 := by omega
  have hd2 : a / 2 ^ 4 - 27504 ≤ 38031 := by omega
  have hs1 : 0 ≤ (a / 2 ^ 4 - 27504) * (a / 2 ^ 4 - 27504) := mul_self_nonneg _
  have hs2 : (a / 2 ^ 4 - 27504) * (a / 2 ^ 4 - 27504) ≤ 1446356961 := by
    nlinarith [hd1, hd2]
  have e5 : wrap32 ((a / 2 ^ 4 - 27504) * (a / 2 ^ 4 - 27504)) =
      (a / 2 ^ 4 - 27504) * (a / 2 ^ 4 - 27504) :=
    wrap32_eq_self _ (by omega) (by omega)
  rw [e5]
  have e6 : wrap32 ((a / 2 ^ 4 - 27504) * (a / 2 ^ 4 - 27504) / 2 ^ 12 * (-1000)) =
      (a / 2 ^ 4 - 27504) * (a / 2 ^ 4 - 27504) / 2 ^ 12 * (-1000) :=
    wrap32_eq_self _ (by omega) (by omega)
  rw [e6]
  exact wrap32_eq_self _ (by omega) (by omega)

/-- Closed form of the `t_fine` field produced by `compensate_T` on the
datasheet calibration over the 20-bit ADC range. -/
theorem tfine_spec_calib (c : bme280_calib_t) (h1 : c.dig_T1 = 27504)
    (h2 : c.dig_T2 = 26435) (h3 : c.dig_T3 = -1000) (a : Int)
    (ha : 0 ≤ a) (hb : a < 1048576) :
    ((compensate_T a c).2).t_fine =
      (a / 2 ^ 3 - 55008) * 26435 / 2 ^ 11 +
      (a / 2 ^ 4 - 27504) * (a / 2 ^ 4 - 27504) / 2 ^ 12 * (-1000) / 2 ^ 14 := by
  simp only [compensate_T, h1, h2, h3]
  exact tfine_chain a ha hb

/-- The closed-form `t_fine` stays within a million on the 20-bit range. -/
theorem tfine_bound (a : Int) (ha : 0 ≤ a) (hb : a < 1048576) :
    -1000000 ≤ (a / 2 ^ 3 - 55008) * 26435 / 2 ^ 11 +
      (a / 2 ^ 4 - 27504) * (a / 2 ^ 4 - 27504) / 2 ^ 12 * (-1000) / 2 ^ 14 ∧
    (a / 2 ^ 3 - 55008) * 26435 / 2 ^ 11 +
      (a / 2 ^ 4 - 27504) * (a / 2 ^ 4 - 27504) / 2 ^ 12 * (-1000) / 2 ^ 14 ≤ 1000000 := by
  have hd1 : -27504 ≤ a / 2 ^ 4 - 27504 := by omega
  have hd2 : a / 2 ^ 4 - 27504 ≤ 38031 := by omega
  have hs1 : 0 ≤ (a / 2 ^ 4 - 27504) * (a / 2 ^ 4 - 27504) := mul_self_nonneg _
  have hs2 : (a / 2 ^ 4 - 27504) * (a / 2 ^ 4 - 27504) ≤ 1446356961 := by
    nlinarith [hd1, hd2]
  constructor <;> omega

/-- The closed-form `t_fine` is monotone in `y = adc >> 3` on the datasheet
calibration: the linear gain of the `T2` term (at least 12 per unit of `y`)
dominates the worst-case decrease of the quadratic `T3` term. -/
theorem G_mono (y z : Int) (h0 : 0 ≤ y) (hyz : y ≤ z) (h1 : z ≤ 131071) :
    (y - 55008) * 26435 / 2 ^ 11 +
      (y / 2 - 27504) * (y / 2 - 27504) / 2 ^ 12 * (-1000) / 2 ^ 14 ≤
    (z - 55008) * 26435 / 2 ^ 11 +
      (z / 2 - 27504) * (z / 2 - 27504) / 2 ^ 12 * (-1000) / 2 ^ 14 := by
  have hA : (y - 55008) * 26435 / 2 ^ 11 + 12 * (z - y) ≤ (z - 55008) * 26435 / 2 ^ 11 := by
    have key : (y - 55008) * 26435 + 12 * (z - y) * 2 ^ 11 ≤ (z - 55008) * 26435 := by omega
    calc (y - 55008) * 26435 / 2 ^ 11 + 12 * (z - y)
        = ((y - 55008) * 26435 + 12 * (z - y) * 2 ^ 11) / 2 ^ 11 :=
          (Int.add_mul_ediv_right _ _ (by norm_num)).symm
      _ ≤ (z - 55008) * 26435 / 2 ^ 11 := Int.ediv_le_ediv (by norm_num) key
  set x := y / 2 with hx
  set w := z / 2 with hw
  have hxw : x ≤ w := by omega
  have hwb : w ≤ 65535 := by omega
  have hx0 : 0 ≤ x := by omega
  rcases eq_or_lt_of_le hxw with heq | hlt
  · rw [heq]
    have hn : 0 ≤ 12 * (z - y) := by omega
    linarith [hA]
  · have hΔ1 : 1 ≤ w - x := by omega
    have hcoef : w + x - 55008 ≤ 76062 := by omega
    have hsdiff : (w - 27504) * (w - 27504) ≤
        (x - 27504) * (x - 27504) + 76062 * (w - x) := by
      nlinarith [mul_le_mul_of_nonneg_right hcoef (by omega : (0:ℤ) ≤ w - x)]
    have hq : (w - 27504) * (w - 27504) / 2 ^ 12 ≤
        (x - 27504) * (x - 27504) / 2 ^ 12 + (19 * (w - x) + 1) := by
      have step : (w - 27504) * (w - 27504) ≤
          (x - 27504) * (x - 27504) + (19 * (w - x) + 1) * 2 ^ 12 := by omega
      calc (w - 27504) * (w - 27504) / 2 ^ 12
          ≤ ((x - 27504) * (x - 27504) + (19 * (w - x) + 1) * 2 ^ 12) / 2 ^ 12 :=
            Int.ediv_le_ediv (by norm_num) step
        _ = (x - 27504) * (x - 27504) / 2 ^ 12 + (19 * (w - x) + 1) :=
            Int.add_mul_ediv_right _ _ (by norm_num)
    have hB : (x - 27504) * (x - 27504) / 2 ^ 12 * (-1000) / 2 ^ 14 ≤
        (w - 27504) * (w - 27504) / 2 ^ 12 * (-1000) / 2 ^ 14 + (2 * (w - x) + 1) := by
      have step : (x - 27504) * (x - 27504) / 2 ^ 12 * (-1000) ≤
          (w - 27504) * (w - 27504) / 2 ^ 12 * (-1000) + (2 * (w - x) + 1) * 2 ^ 14 := by
        omega
      calc (x - 27504) * (x - 27504) / 2 ^ 12 * (-1000) / 2 ^ 14
          ≤ ((w - 27504) * (w - 27504) / 2 ^ 12 * (-1000) +
              (2 * (w - x) + 1) * 2 ^ 14) / 2 ^ 14 :=
            Int.ediv_le_ediv (by norm_num) step
        _ = (w - 27504) * (w - 27504) / 2 ^ 12 * (-1000) / 2 ^ 14 + (2 * (w - x) + 1) :=
            Int.add_mul_ediv_right _ _ (by norm_num)
    have hfin : 2 * (w - x) + 1 ≤ 12 * (z - y) := by omega
    linarith [hA, hB, hfin]

/-- The final `(t_fine*5+128) >> 8` and division by 100 preserve order for
bounded `t_fine` values. -/
theorem final_scale_mono (s t : Int) (hs : -1000000 ≤ s) (hs2 : s ≤ 1000000)
    (ht : -1000000 ≤ t) (ht2 : t ≤ 1000000) (hst : s ≤ t) :
    ((asr (wrap32 (wrap32 (s * 5) + 128)) 8 : Int) : ℚ) / 100 ≤
    ((asr (wrap32 (wrap32 (t * 5) + 128)) 8 : Int) : ℚ) / 100 := by
  have e1 : wrap32 (s * 5) = s * 5 := wrap32_eq_self _ (by omega) (by omega)
  have e2 : wrap32 (s * 5 + 128) = s * 5 + 128 := wrap32_eq_self _ (by omega) (by omega)
  have e3 : wrap32 (t * 5) = t * 5 := wrap32_eq_self _ (by omega) (by omega)
  have e4 : wrap32 (t * 5 + 128) = t * 5 + 128 := wrap32_eq_self _ (by omega) (by omega)
  rw [e1, e2, e3, e4]
  have hint : asr (s * 5 + 128) 8 ≤ asr (t * 5 + 128) 8 := by
    simp only [asr]
    omega
  have hq : ((asr (s * 5 + 128) 8 : Int) : ℚ) ≤ ((asr (t * 5 + 128) 8 : Int) : ℚ) := by
    exact_mod_cast hint
  linarith

/-- C7 counterexample.  Temperature compensation is not monotone in the raw
ADC value for every calibration set: with `T1 = 0`, `T2 = 0`, `T3 = -1000`
(all fields within their C types' ranges), raw value 0 maps to 0.00 °C
but raw value 100000 maps to -0.11 °C. -/
theorem compensate_T_not_monotone :
    (0 : Int) ≤ 100000 ∧ (100000 : Int) < 1048576 ∧
    ¬ ((compensate_T 0 nonMonoCalib).1 ≤ (compensate_T 100000 nonMonoCalib).1) :=
  ⟨by decide, by decide, by
    norm_num [compensate_T, nonMonoCalib, wrap32, asr, shl32]⟩

/-- C7 amended.  For the spec's synthetic (datasheet) calibration
`T1 = 27504`, `T2 = 26435`, `T3 = -1000` and raw ADC values within the
sensor's 20-bit span, temperature compensation is monotone: a higher raw
value yields a higher or equal temperature. -/
theorem compensate_T_monotone_datasheet (c : bme280_calib_t)
    (h1 : c.dig_T1 = 27504) (h2 : c.dig_T2 = 26435) (h3 : c.dig_T3 = -1000)
    (a b : Int) (ha : 0 ≤ a) (hab : a ≤ b) (hb : b < 1048576) :
    (compensate_T a c).1 ≤ (compensate_T b c).1 := by
  have ha2 : 0 ≤ b := by omega
  have hb2 : a < 1048576 := by omega
  have eta := tfine_spec_calib c h1 h2 h3 a ha hb2
  have etb := tfine_spec_calib c h1 h2 h3 b ha2 hb
  have hmono := G_mono (a / 2 ^ 3) (b / 2 ^ 3) (by omega) (by omega) (by omega)
  rw [show a / 2 ^ 3 / 2 = a / 2 ^ 4 from by omega,
      show b / 2 ^ 3 / 2 = b / 2 ^ 4 from by omega] at hmono
  have htfa := tfine_bound a ha hb2
  have htfb := tfine_bound b ha2 hb
  have hva : (compensate_T a c).1 =
      ((asr (wrap32 (wrap32 (((compensate_T a c).2.t_fine) * 5) + 128)) 8 : Int) : ℚ) / 100 := rfl
  have hvb : (compensate_T b c).1 =
      ((asr (wrap32 (wrap32 (((compensate_T b c).2.t_fine) * 5) + 128)) 8 : Int) : ℚ) / 100 := rfl
  rw [hva, hvb, eta, etb]
  exact final_scale_mono _ _ htfa.1 htfa.2 htfb.1 htfb.2 hmono

/-- Witness for the amended C7 on the spec's synthetic calibration set. -/
theorem compensate_T_monotone_datasheet_witness :
    (specCalib.dig_T1 = 27504 ∧ specCalib.dig_T2 = 26435 ∧
     specCalib.dig_T3 = -1000 ∧ (0 : Int) ≤ 0 ∧ (0 : Int) ≤ 519888 ∧
     (519888 : Int) < 1048576) ∧
    (compensate_T 0 specCalib).1 ≤ (compensate_T 519888 specCalib).1 :=
  ⟨⟨rfl, rfl, rfl, le_refl 0, by decide, by decide⟩,
   compensate_T_monotone_datasheet specCalib rfl rfl rfl 0 519888
     (by decide) (by decide) (by decide)⟩
